import Mathlib

/-!
# Verification of the nox orchestrator ("Sorcerer")

A shallow embedding of `src/sorcerer/src/sorcerer.rs`.  External
collaborators (spell storage, particle services, peer scopes, the spell
service API, the spell event bus) are modelled as an explicit environment
of functions; effects performed by the orchestrator (log lines, subscribe
calls, metric observations) are recorded as trace events; a Rust panic
(`expect`/`unwrap`) is modelled as `Option.none`.
-/

/-- Spell identifiers (opaque strings in the source). -/
abbrev SpellId := String

/-- Peer identifiers (opaque; `PeerId` in the source). -/
abbrev PeerId := Nat

/-- Models `PeerScope` from `particle_services`: host or a worker scope. -/
inductive PeerScope where
  | host : PeerScope
  | worker : PeerId → PeerScope
deriving DecidableEq, Repr

/-- Models `JError` from `particle_args`: the structured builtin-call error value. -/
structure JError where
  msg : String
deriving DecidableEq, Repr

/-- A user-facing trigger config as returned by
`spell_service_api.get_trigger_config`; only the field read by the
orchestrator (`config.clock.period_sec`) is modelled. -/
structure TriggerConfigUser where
  period_sec : Nat
deriving DecidableEq, Repr

/-- The internal rescheduled subscription request
(`SpellTriggerConfigs` after `into_rescheduled`); opaque to the
orchestrator, which only forwards it to `subscribe`. -/
structure RescheduledConfig where
  data : Nat
deriving DecidableEq, Repr

/-- Models `CallParams::local(peer_scope, spell_id, spell_owner, ttl)` from
`spell_service_api`. -/
structure CallParams where
  peer_scope : PeerScope
  spell_id : SpellId
  spell_owner : PeerId
  ttl : Nat
deriving DecidableEq, Repr

/-- Constructor mirroring `CallParams::local` in the source. -/
def CallParams.local (peer_scope : PeerScope) (spell_id : SpellId)
    (spell_owner : PeerId) (ttl : Nat) : CallParams :=
  ⟨peer_scope, spell_id, spell_owner, ttl⟩

/-- The external collaborators used by `Sorcerer::resubscribe_spells`,
as an environment of functions.  Each field is one call the source makes:
`spell_storage.get_registered_spells()` (an owner → spell-ids grouping),
`services.get_service_owner`, `scopes.scope`,
`spell_service_api.get_trigger_config`, `from_user_config`,
`into_rescheduled`, `spell_event_bus_api.subscribe`, and the optional
`spell_metrics`. -/
structure ResubEnv where
  registered_spells : List (PeerId × List SpellId)
  get_service_owner : SpellId → Except JError PeerId
  scope : PeerId → Option PeerScope
  spell_script_particle_ttl : Nat
  get_trigger_config : CallParams → Except JError TriggerConfigUser
  from_user_config : TriggerConfigUser → Except JError (Option RescheduledConfig)
  into_rescheduled : RescheduledConfig → Option RescheduledConfig
  subscribe : SpellId → RescheduledConfig → Except JError Unit
  has_metrics : Bool

/-- Effects performed during recovery, in order. -/
inductive ResubEvent where
  | logRescheduling : SpellId → ResubEvent
  | subscribeCall : SpellId → RescheduledConfig → ResubEvent
  | observeStarted : Nat → ResubEvent
  | warnNotRescheduled : SpellId → ResubEvent
  | warnFailed : SpellId → JError → ResubEvent
  | removeSpellCall : SpellId → ResubEvent
deriving DecidableEq, Repr

/-- How one iteration of the recovery loop body ends for one spell. -/
inductive ResubOutcome where
  | panic : ResubOutcome
  | failed : JError → ResubOutcome
  | notRescheduled : ResubOutcome
  | subscribeFailed : RescheduledConfig → JError → ResubOutcome
  | subscribed : RescheduledConfig → Nat → ResubOutcome
deriving DecidableEq, Repr

/-- One iteration of the `resubscribe_spells` loop body, translated from
the source `try` block step by step: owner lookup (`?`), scope resolution
(`.expect("Should be local peer_id")`, which panics on failure), trigger
config fetch (`?`), `from_user_config` (`?`), `into_rescheduled`
(`if let Some`), and the subscribe call (`?`). -/
def resubscribeStep (env : ResubEnv) (spell_id : SpellId) : ResubOutcome :=
  match env.get_service_owner spell_id with
  | .error e => .failed e
  | .ok spell_owner =>
    match env.scope spell_owner with
    | none => .panic
    | some peer_scope =>
      match env.get_trigger_config (CallParams.local peer_scope spell_id
        spell_owner env.spell_script_particle_ttl) with
      | .error e => .failed e
      | .ok config =>
        match env.from_user_config config with
        | .error e => .failed e
        | .ok converted =>
          match converted.bind env.into_rescheduled with
          | none => .notRescheduled
          | some rc =>
            match env.subscribe spell_id rc with
            | .error e => .subscribeFailed rc e
            | .ok _ => .subscribed rc config.period_sec

/-- The events of one loop iteration: the "Rescheduling spell" info log,
then the effects its outcome implies (the subscribe call when one was
made, the metric observation on success with metrics enabled, the
`warn` log for a caught error or a non-reschedulable config).  `none`
models the scope-resolution panic aborting the process. -/
def resubscribeOne (env : ResubEnv) (spell_id : SpellId) :
    Option (List ResubEvent) :=
  match resubscribeStep env spell_id with
  | .panic => none
  | .failed e => some [.logRescheduling spell_id, .warnFailed spell_id e]
  | .notRescheduled =>
    some [.logRescheduling spell_id, .warnNotRescheduled spell_id]
  | .subscribeFailed rc e =>
    some [.logRescheduling spell_id, .subscribeCall spell_id rc,
      .warnFailed spell_id e]
  | .subscribed rc period =>
    some ([.logRescheduling spell_id, .subscribeCall spell_id rc] ++
      (if env.has_metrics then [.observeStarted period] else []))

/-- The flattened iteration order of the recovery loop:
`get_registered_spells().values().flatten()`. -/
def flattenedSpells (env : ResubEnv) : List SpellId :=
  (env.registered_spells.map Prod.snd).flatten

/-- The recovery loop over a list of spell ids; `none` as soon as one
iteration panics. -/
def resubscribeList (env : ResubEnv) : List SpellId → Option (List ResubEvent)
  | [] => some []
  | spell_id :: rest => do
    let t ← resubscribeOne env spell_id
    let ts ← resubscribeList env rest
    pure (t ++ ts)

/-- Models `Sorcerer::resubscribe_spells`: iterate over the flattened
owner → spell-ids grouping and attempt to reschedule each spell. -/
def resubscribeSpells (env : ResubEnv) : Option (List ResubEvent) :=
  resubscribeList env (flattenedSpells env)

/-- The error (if any) caught by the per-spell `try` block for a given
spell id: an owner lookup, config fetch, config conversion or subscribe
failure.  `none` means the spell either succeeds, is skipped as
non-reschedulable, or panics at scope resolution. -/
def stepError (env : ResubEnv) (spell_id : SpellId) : Option JError :=
  match resubscribeStep env spell_id with
  | .failed e => some e
  | .subscribeFailed _ e => some e
  | _ => none

/-- A spell qualifies for resubscription when its owner resolves to a
local peer scope and its persisted trigger config is fetched and
converts to a rescheduled subscription request — precisely when the
iteration reaches the subscribe call. -/
def qualifies (env : ResubEnv) (spell_id : SpellId) : Bool :=
  match resubscribeStep env spell_id with
  | .subscribeFailed _ _ => true
  | .subscribed _ _ => true
  | _ => false

/-- Is this trace event a subscribe call? -/
def ResubEvent.isSubscribe : ResubEvent → Bool
  | .subscribeCall _ _ => true
  | _ => false

/-- The spell ids of the subscribe calls in a trace, in order. -/
def subscribedIds (trace : List ResubEvent) : List SpellId :=
  trace.filterMap fun ev =>
    match ev with
    | .subscribeCall id _ => some id
    | _ => none

/-- Is this trace event a registry deletion? -/
def ResubEvent.isRemove : ResubEvent → Bool
  | .removeSpellCall _ => true
  | _ => false

/-- How a trace event acts on the set of registered spells: only an
explicit `spell_storage.unregister_spell` (issued by the user-facing
remove operation, never by recovery) deletes a registration. -/
def applyRegistry (reg : List SpellId) : ResubEvent → List SpellId
  | .removeSpellCall id => reg.filter (fun s => s ≠ id)
  | _ => reg

/-- The registry contents after a trace of recovery events. -/
def runRegistry (reg : List SpellId) (trace : List ResubEvent) : List SpellId :=
  trace.foldl applyRegistry reg

/-- Models `TriggerEvent` from `spell_event_bus::api`: a spell id plus the event
payload that fired it. -/
structure TriggerEvent where
  spell_id : SpellId
  event : Nat
deriving DecidableEq, Repr

/-- Events of a full `Sorcerer::start` run: the recovery step's effects,
then one dispatched concurrent unit of work per received trigger event. -/
inductive StartEvent where
  | recovery : ResubEvent → StartEvent
  | dispatch : TriggerEvent → StartEvent
deriving DecidableEq, Repr

/-- The concurrency limit passed to `for_each_concurrent` in
`Sorcerer::start`: `None`, i.e. unbounded. -/
def forEachConcurrentLimit : Option Nat := none

/-- Is this start event a dispatched unit of work, and for which event? -/
def StartEvent.dispatched : StartEvent → Option TriggerEvent
  | .dispatch ev => some ev
  | _ => none

/-- Models `Sorcerer::start`: the spawned task first awaits
`resubscribe_spells`, then wraps the receiver into a stream and runs
`for_each_concurrent(None, ...)`, dispatching each received trigger
event to its own unit of work until the channel closes (modelled by the
end of the event list).  `none` models a panic during recovery. -/
def start (env : ResubEnv) (spell_events : List TriggerEvent) :
    Option (List StartEvent) :=
  match resubscribeSpells env with
  | none => none
  | some rt =>
    some (rt.map StartEvent.recovery ++ spell_events.map StartEvent.dispatch)

/-- Dynamically typed call argument values (`serde_json::Value`); only the
shapes the orchestrator itself constructs are distinguished. -/
inductive Value where
  | str : String → Value
  | bool : Bool → Value
  | null : Value
deriving DecidableEq, Repr

/-- An ordered sequence of call arguments. -/
abbrev Args := List Value

/-- The per-call parameters record handed to a builtin handler (caller
identity, target scope, ttl); opaque to the closures in `sorcerer.rs`,
which only forward it. -/
abbrev Params := Nat

/-- Modelled from the spec: `wrap` lives in `particle_builtins`, which is
not among the modelled source files.  Per the Service Call Surface
contract, it wraps a value-returning builtin result so that a successful
call produces exactly one return value slot. -/
def wrap (r : Except JError Value) : Except JError (Option Value) :=
  r.map some

/-- Modelled from the spec: `wrap_unit` lives in `particle_builtins`, which
is not among the modelled source files.  Per the Service Call Surface
contract, it marks success-with-no-value: a successful unit-returning
builtin call produces no return value slot. -/
def wrap_unit (r : Except JError Unit) : Except JError (Option Value) :=
  r.map fun _ => none

/-- The execution context a piece of work runs on: the shared cooperative
async scheduler, or the separate context reserved for blocking work
(`tokio::task::spawn_blocking`). -/
inductive ExecCtx where
  | cooperative : ExecCtx
  | blocking : ExecCtx
deriving DecidableEq, Repr

/-- Models `tokio::task::JoinError`: failure of the offloaded execution context
itself to run the dispatched work. -/
structure JoinError where
  msg : String
deriving DecidableEq, Repr

/-- The `From<JoinError>` conversion applied by the `?` operator in the
`is_active` closure, producing a structured builtin-call error. -/
def JoinError.toJError (e : JoinError) : JError :=
  ⟨e.msg⟩

/-- Models `tokio::task::spawn_blocking(f).await`: runs `f` on the blocking
execution context; the join itself may fail. -/
def spawn_blocking {α : Type} (join : Except JoinError Unit) (f : Unit → α) :
    ExecCtx × Except JoinError α :=
  (ExecCtx.blocking, join.map fun _ => f ())

/-- What one builtin handler invocation produces: the execution context the
underlying builtin work ran on, and the wrapped result per the handler
contract `Result<Option<Value>, Error>`. -/
structure HandlerOutput where
  ctx : ExecCtx
  result : Except JError (Option Value)
deriving Repr

/-- A builtin handler (`ServiceFunction` body). -/
abbrev Handler := Args → Params → HandlerOutput

/-- The underlying builtin implementations from `spell_builtins` /
`worker_builins` and the handles the closures capture, abstracted as an
environment: the closures in `sorcerer.rs` only call them and wrap their
results. -/
structure BuiltinEnv where
  spell_install : Args → Params → Except JError Value
  spell_remove : Args → Params → Except JError Unit
  spell_list : Params → Except JError Value
  spell_update_config : Args → Params → Except JError Unit
  get_spell_id : Params → Except JError Value
  host_peer_id_base58 : String
  get_spell_arg : Args → Params → Except JError Value
  store_error : Args → Params → Except JError Unit
  store_response : Args → Params → Except JError Unit
  create_worker : Args → Params → Except JError Value
  get_worker_peer_id : Args → Except JError Value
  worker_list : Unit → Except JError Value
  remove_worker : Args → Params → Except JError Unit
  activate_deal : Args → Params → Except JError Unit
  deactivate_deal : Args → Params → Except JError Unit
  is_deal_active : Args → Except JError Value
  join_is_deal_active : Except JoinError Unit

/-- Models `make_spell_install_closure`: wraps `spell_install` with `wrap`. -/
def make_spell_install_closure (env : BuiltinEnv) : Handler :=
  fun args params => ⟨.cooperative, wrap (env.spell_install args params)⟩

/-- Models `make_spell_remove_closure`: wraps `spell_remove` with `wrap_unit`. -/
def make_spell_remove_closure (env : BuiltinEnv) : Handler :=
  fun args params => ⟨.cooperative, wrap_unit (env.spell_remove args params)⟩

/-- Models `make_spell_list_closure`: ignores args, wraps `spell_list` with
`wrap`. -/
def make_spell_list_closure (env : BuiltinEnv) : Handler :=
  fun _ params => ⟨.cooperative, wrap (env.spell_list params)⟩

/-- Models `make_spell_update_config_closure`: wraps `spell_update_config` with
`wrap_unit`. -/
def make_spell_update_config_closure (env : BuiltinEnv) : Handler :=
  fun args params => ⟨.cooperative, wrap_unit (env.spell_update_config args params)⟩

/-- Models `make_get_spell_id_closure`: ignores args, wraps `get_spell_id` with
`wrap`. -/
def make_get_spell_id_closure (env : BuiltinEnv) : Handler :=
  fun _ params => ⟨.cooperative, wrap (env.get_spell_id params)⟩

/-- Models `make_get_relay_closure`: always returns the host peer id as a wrapped
string value. -/
def make_get_relay_closure (env : BuiltinEnv) : Handler :=
  fun _ _ => ⟨.cooperative, wrap (.ok (Value.str env.host_peer_id_base58))⟩

/-- Models `make_get_spell_arg_closure`: wraps `get_spell_arg` with `wrap`. -/
def make_get_spell_arg_closure (env : BuiltinEnv) : Handler :=
  fun args params => ⟨.cooperative, wrap (env.get_spell_arg args params)⟩

/-- Models `make_error_handler_closure`: wraps `store_error` with `wrap_unit`. -/
def make_error_handler_closure (env : BuiltinEnv) : Handler :=
  fun args params => ⟨.cooperative, wrap_unit (env.store_error args params)⟩

/-- Models `make_response_handler_closure`: wraps `store_response` with
`wrap_unit`. -/
def make_response_handler_closure (env : BuiltinEnv) : Handler :=
  fun args params => ⟨.cooperative, wrap_unit (env.store_response args params)⟩

/-- Models `make_worker_create_closure`: wraps `create_worker` with `wrap`. -/
def make_worker_create_closure (env : BuiltinEnv) : Handler :=
  fun args params => ⟨.cooperative, wrap (env.create_worker args params)⟩

/-- Models `make_worker_get_worker_id_closure`: ignores params, wraps
`get_worker_peer_id` with `wrap`. -/
def make_worker_get_worker_id_closure (env : BuiltinEnv) : Handler :=
  fun args _ => ⟨.cooperative, wrap (env.get_worker_peer_id args)⟩

/-- Models `make_worker_list_closure`: ignores args and params, wraps
`worker_list` with `wrap`. -/
def make_worker_list_closure (env : BuiltinEnv) : Handler :=
  fun _ _ => ⟨.cooperative, wrap (env.worker_list ())⟩

/-- Models `make_worker_remove_closure`: wraps `remove_worker` with `wrap_unit`. -/
def make_worker_remove_closure (env : BuiltinEnv) : Handler :=
  fun args params => ⟨.cooperative, wrap_unit (env.remove_worker args params)⟩

/-- Models `make_activate_deal_closure`: wraps `activate_deal` with `wrap_unit`. -/
def make_activate_deal_closure (env : BuiltinEnv) : Handler :=
  fun args params => ⟨.cooperative, wrap_unit (env.activate_deal args params)⟩

/-- Models `make_deactivate_deal_closure`: wraps `deactivate_deal` with
`wrap_unit`. -/
def make_deactivate_deal_closure (env : BuiltinEnv) : Handler :=
  fun args params => ⟨.cooperative, wrap_unit (env.deactivate_deal args params)⟩

/-- Models `make_is_deal_active_closure`: dispatches
`wrap(is_deal_active(args, workers))` via `tokio::task::spawn_blocking`
and applies `?` to the awaited join result, converting a join failure
into a builtin-call error. -/
def make_is_deal_active_closure (env : BuiltinEnv) : Handler :=
  fun args _ =>
    let joined := spawn_blocking env.join_is_deal_active
      (fun _ => wrap (env.is_deal_active args))
    ⟨joined.1,
      match joined.2 with
      | .error e => .error e.toJError
      | .ok out => out⟩

/-- Models `CustomService` from `particle_builtins`: a table of function name →
handler, plus an optional catch-all default handler. -/
structure CustomService where
  functions : List (String × Handler)
  fallback : Option Handler

/-- Models `CustomService::new(functions, fallback)`. -/
def CustomService.new (functions : List (String × Handler))
    (fallback : Option Handler) : CustomService :=
  ⟨functions, fallback⟩

/-- Models `Sorcerer::make_spell_builtins`: the four spell-management service
groups, in source insertion order. -/
def make_spell_builtins (env : BuiltinEnv) : List (String × CustomService) :=
  [("spell", CustomService.new
      [("install", make_spell_install_closure env),
       ("remove", make_spell_remove_closure env),
       ("list", make_spell_list_closure env),
       ("update_trigger_config", make_spell_update_config_closure env)]
      none),
   ("getDataSrv", CustomService.new
      [("spell_id", make_get_spell_id_closure env),
       ("-relay-", make_get_relay_closure env)]
      (some (make_get_spell_arg_closure env))),
   ("errorHandlingSrv", CustomService.new
      [("error", make_error_handler_closure env)]
      none),
   ("callbackSrv", CustomService.new
      [("response", make_response_handler_closure env)]
      none)]

/-- Models `Sorcerer::make_worker_builtin`: the worker/deal management service
group. -/
def make_worker_builtin (env : BuiltinEnv) : String × CustomService :=
  ("worker", CustomService.new
    [("create", make_worker_create_closure env),
     ("get_worker_id", make_worker_get_worker_id_closure env),
     ("remove", make_worker_remove_closure env),
     ("list", make_worker_list_closure env),
     ("activate", make_activate_deal_closure env),
     ("deactivate", make_deactivate_deal_closure env),
     ("is_active", make_is_deal_active_closure env)]
    none)

/-- The full builtin catalog built by `Sorcerer::new`:
`make_spell_builtins` extended with `make_worker_builtin`. -/
def builtin_functions (env : BuiltinEnv) : List (String × CustomService) :=
  make_spell_builtins env ++ [make_worker_builtin env]

/-- Dispatch by (service name, function name): look the service up in the
catalog, then the function in its table, falling back to the service's
catch-all default handler when the name is not listed. -/
def lookupBuiltin (env : BuiltinEnv) (service fname : String) :
    Option Handler :=
  ((builtin_functions env).lookup service).bind fun cs =>
    match cs.functions.lookup fname with
    | some h => some h
    | none => cs.fallback

/-- Models `SpellStorage`: only its registrations are observable here. -/
structure SpellStorage where
  registered : List SpellId
deriving DecidableEq, Repr

/-- Models `config.dir_config`. -/
structure DirConfig where
  spell_base_dir : String
deriving DecidableEq, Repr

/-- The slice of `ResolvedConfig` that `Sorcerer::new` reads. -/
structure ResolvedConfig where
  dir_config : DirConfig
  max_spell_particle_ttl : Nat
  worker_period_sec : Nat
deriving DecidableEq, Repr

/-- The `Sorcerer` fields observable in this development. -/
structure Sorcerer where
  spell_storage : SpellStorage
  spell_script_particle_ttl : Nat
  worker_period_sec : Nat
deriving DecidableEq, Repr

/-- Models `Sorcerer::new`: `SpellStorage::create` is called on the configured
spell base directory and its result unwrapped with
`.expect("Spell storage creation")` — a failure panics, modelled as
`none`.  On success the orchestrator, the builtin catalog and the spell
version string are returned; the signature has no error variant.
`create` abstracts `SpellStorage::create`, an external collaborator. -/
def Sorcerer.new (env : BuiltinEnv)
    (create : String → Except String (SpellStorage × String))
    (config : ResolvedConfig) :
    Option (Sorcerer × List (String × CustomService) × String) :=
  match create config.dir_config.spell_base_dir with
  | .error _ => none
  | .ok (spell_storage, spell_version) =>
    some ({ spell_storage := spell_storage,
            spell_script_particle_ttl := config.max_spell_particle_ttl,
            worker_period_sec := config.worker_period_sec },
          builtin_functions env, spell_version)

/-- A recovery iteration for this spell cannot hit the scope-resolution
`expect`: either the owner lookup already fails (caught by the `try`
block) or the looked-up owner has a local peer scope. -/
def scopeResolves (env : ResubEnv) (spell_id : SpellId) : Bool :=
  match env.get_service_owner spell_id with
  | .error _ => true
  | .ok owner => (env.scope owner).isSome

/-- No registered spell makes recovery panic at scope resolution. -/
abbrev NoScopePanic (env : ResubEnv) : Prop :=
  ∀ id ∈ flattenedSpells env, scopeResolves env id = true

/-- The spell's owner and scope resolve but its persisted trigger
configuration is absent (fetch fails), malformed (conversion fails), or
non-reschedulable (`into_rescheduled` yields nothing). -/
def configUnusable (env : ResubEnv) (spell_id : SpellId) : Bool :=
  match env.get_service_owner spell_id with
  | .error _ => false
  | .ok spell_owner =>
    match env.scope spell_owner with
    | none => false
    | some peer_scope =>
      match env.get_trigger_config (CallParams.local peer_scope spell_id
        spell_owner env.spell_script_particle_ttl) with
      | .error _ => true
      | .ok config =>
        match env.from_user_config config with
        | .error _ => true
        | .ok converted => (converted.bind env.into_rescheduled).isNone

/-- Is this start event a recovery-step effect? -/
def StartEvent.isRecovery : StartEvent → Bool
  | .recovery _ => true
  | .dispatch _ => false

/-- The (service, function) names of the unit-returning builtins. -/
def unitBuiltins : List (String × String) :=
  [("spell", "remove"), ("spell", "update_trigger_config"),
   ("worker", "remove"), ("worker", "activate"), ("worker", "deactivate"),
   ("errorHandlingSrv", "error"), ("callbackSrv", "response")]

/-- The (service, function) names of the value-returning builtins (the
`getDataSrv` default handler is additionally covered by quantifying over
all function names of that service). -/
def valueBuiltins : List (String × String) :=
  [("spell", "install"), ("spell", "list"),
   ("getDataSrv", "spell_id"), ("getDataSrv", "-relay-"),
   ("worker", "create"), ("worker", "get_worker_id"), ("worker", "list"),
   ("worker", "is_active")]

/-- A concrete recovery environment with four registered spells grouped
under two owners: one fully reschedulable, one whose owner lookup fails,
one with a non-reschedulable (zero-period) config, one whose config fetch
fails.  Every resolved owner is a local peer. -/
def envA : ResubEnv where
  registered_spells := [(0, ["good", "ownerless"]), (1, ["noresched", "badcfg"])]
  get_service_owner := fun id =>
    if id = "ownerless" then .error ⟨"no owner"⟩ else .ok 0
  scope := fun _ => some PeerScope.host
  spell_script_particle_ttl := 60
  get_trigger_config := fun p =>
    if p.spell_id = "badcfg" then .error ⟨"no config"⟩
    else if p.spell_id = "noresched" then .ok ⟨0⟩
    else .ok ⟨5⟩
  from_user_config := fun c => .ok (some ⟨c.period_sec⟩)
  into_rescheduled := fun rc => if rc.data = 0 then none else some rc
  subscribe := fun _ _ => .ok ()
  has_metrics := true

/-- A concrete recovery environment with two registered spells whose owner
lookup succeeds but whose owner is not a locally-known peer: `scope`
resolves to nothing. -/
def envC1 : ResubEnv where
  registered_spells := [(0, ["spell-a", "spell-b"])]
  get_service_owner := fun _ => .ok 7
  scope := fun _ => none
  spell_script_particle_ttl := 0
  get_trigger_config := fun _ => .ok ⟨1⟩
  from_user_config := fun c => .ok (some ⟨c.period_sec⟩)
  into_rescheduled := fun rc => some rc
  subscribe := fun _ _ => .ok ()
  has_metrics := false

/-- A concrete builtin environment whose underlying builtins all succeed;
the blocking-dispatch join succeeds. -/
def envW : BuiltinEnv where
  spell_install := fun _ _ => .ok (Value.str "spell-1")
  spell_remove := fun _ _ => .ok ()
  spell_list := fun _ => .ok (Value.str "[]")
  spell_update_config := fun _ _ => .ok ()
  get_spell_id := fun _ => .ok (Value.str "spell-1")
  host_peer_id_base58 := "12D3KooW"
  get_spell_arg := fun _ _ => .ok Value.null
  store_error := fun _ _ => .ok ()
  store_response := fun _ _ => .ok ()
  create_worker := fun _ _ => .ok (Value.str "worker-1")
  get_worker_peer_id := fun _ => .ok (Value.str "worker-1")
  worker_list := fun _ => .ok (Value.str "[]")
  remove_worker := fun _ _ => .ok ()
  activate_deal := fun _ _ => .ok ()
  deactivate_deal := fun _ _ => .ok ()
  is_deal_active := fun _ => .ok (Value.bool true)
  join_is_deal_active := .ok ()

/-- A concrete builtin environment whose blocking-dispatch join fails. -/
def envJ : BuiltinEnv :=
  { envW with join_is_deal_active := .error ⟨"task cancelled"⟩ }

/-- Concrete trigger events for the event-loop witnesses. -/
def eventsA : List TriggerEvent :=
  [⟨"good", 1⟩, ⟨"noresched", 2⟩, ⟨"good", 3⟩]

/-- The recovery trace of `envA`. -/
def traceA : List ResubEvent :=
  [.logRescheduling "good", .subscribeCall "good" ⟨5⟩, .observeStarted 5,
   .logRescheduling "ownerless", .warnFailed "ownerless" ⟨"no owner"⟩,
   .logRescheduling "noresched", .warnNotRescheduled "noresched",
   .logRescheduling "badcfg", .warnFailed "badcfg" ⟨"no config"⟩]

/-- The full `start` trace of `envA` on `eventsA`. -/
def startTraceA : List StartEvent :=
  traceA.map StartEvent.recovery ++ eventsA.map StartEvent.dispatch

/-- A `SpellStorage::create` stand-in that fails (e.g. an I/O error on the
spell base directory). -/
def createFailW : String → Except String (SpellStorage × String) :=
  fun _ => .error "permission denied"

/-- A concrete resolved configuration. -/
def configW : ResolvedConfig := ⟨⟨"/var/spells"⟩, 60, 120⟩

/-! ## Helper lemmas about the recovery loop -/

theorem resubscribeStep_ne_panic (env : ResubEnv) (id : SpellId)
    (h : scopeResolves env id = true) :
    resubscribeStep env id ≠ ResubOutcome.panic := by
  unfold scopeResolves at h
  unfold resubscribeStep
  split
  · simp
  · rename_i owner hown
    simp only [hown] at h
    split
    · rename_i hsc
      rw [hsc] at h
      simp at h
    · split
      · simp
      · split
        · simp
        · split
          · simp
          · split <;> simp

theorem resubscribeOne_isSome (env : ResubEnv) (id : SpellId)
    (h : scopeResolves env id = true) :
    ∃ t, resubscribeOne env id = some t := by
  have hne := resubscribeStep_ne_panic env id h
  unfold resubscribeOne
  cases hs : resubscribeStep env id
  · exact absurd hs hne
  all_goals exact ⟨_, rfl⟩

theorem resubscribeOne_eq_none (env : ResubEnv) (id : SpellId)
    (h : resubscribeStep env id = ResubOutcome.panic) :
    resubscribeOne env id = none := by
  unfold resubscribeOne
  rw [h]

theorem log_mem_resubscribeOne (env : ResubEnv) (id : SpellId)
    (t : List ResubEvent) (h : resubscribeOne env id = some t) :
    ResubEvent.logRescheduling id ∈ t := by
  unfold resubscribeOne at h
  cases hs : resubscribeStep env id <;> simp only [hs] at h <;>
    first
      | exact Option.noConfusion h
      | (replace h := Option.some.inj h; subst h; simp)

theorem warn_mem_resubscribeOne (env : ResubEnv) (id : SpellId)
    (t : List ResubEvent) (e : JError) (h : resubscribeOne env id = some t)
    (he : stepError env id = some e) :
    ResubEvent.warnFailed id e ∈ t := by
  unfold resubscribeOne at h
  unfold stepError at he
  cases hs : resubscribeStep env id <;> simp only [hs] at h he <;>
    first
      | exact Option.noConfusion he
      | (replace he := Option.some.inj he; subst he
         replace h := Option.some.inj h; subst h
         simp)

theorem no_remove_resubscribeOne (env : ResubEnv) (id : SpellId)
    (t : List ResubEvent) (h : resubscribeOne env id = some t) :
    ∀ x ∈ t, x.isRemove = false := by
  unfold resubscribeOne at h
  cases hs : resubscribeStep env id <;> simp only [hs] at h <;>
    first
      | exact Option.noConfusion h
      | (replace h := Option.some.inj h; subst h
         simp [ResubEvent.isRemove])

theorem subscribedIds_resubscribeOne (env : ResubEnv) (id : SpellId)
    (t : List ResubEvent) (h : resubscribeOne env id = some t) :
    subscribedIds t = if qualifies env id then [id] else [] := by
  unfold resubscribeOne at h
  unfold qualifies
  cases hs : resubscribeStep env id <;> simp only [hs] at h ⊢
  · exact Option.noConfusion h
  · replace h := Option.some.inj h; subst h; simp [subscribedIds]
  · replace h := Option.some.inj h; subst h; simp [subscribedIds]
  · replace h := Option.some.inj h; subst h; simp [subscribedIds]
  · replace h := Option.some.inj h; subst h
    cases env.has_metrics <;> simp [subscribedIds]

theorem subscribedIds_append (xs ys : List ResubEvent) :
    subscribedIds (xs ++ ys) = subscribedIds xs ++ subscribedIds ys :=
  List.filterMap_append xs ys _

theorem resubscribeList_isSome (env : ResubEnv) (ids : List SpellId)
    (h : ∀ id ∈ ids, scopeResolves env id = true) :
    ∃ trace, resubscribeList env ids = some trace := by
  induction ids with
  | nil => exact ⟨[], rfl⟩
  | cons a rest ih =>
    obtain ⟨t, ht⟩ := resubscribeOne_isSome env a (h a (List.mem_cons_self a rest))
    obtain ⟨ts, hts⟩ := ih fun id hid => h id (List.mem_cons_of_mem a hid)
    exact ⟨t ++ ts, by simp [resubscribeList, ht, hts]⟩

theorem resubscribeList_none_of_mem (env : ResubEnv) (ids : List SpellId)
    (id : SpellId) (hmem : id ∈ ids) (hnone : resubscribeOne env id = none) :
    resubscribeList env ids = none := by
  induction ids with
  | nil => cases hmem
  | cons a rest ih =>
    rcases List.mem_cons.mp hmem with rfl | hmem2
    · simp [resubscribeList, hnone]
    · cases ha : resubscribeOne env a with
      | none => simp [resubscribeList, ha]
      | some t => simp [resubscribeList, ha, ih hmem2]

theorem mem_resubscribeList (env : ResubEnv) (ids : List SpellId)
    (trace : List ResubEvent) (id : SpellId) (t : List ResubEvent)
    (x : ResubEvent) (h : resubscribeList env ids = some trace)
    (hmem : id ∈ ids) (hone : resubscribeOne env id = some t) (hx : x ∈ t) :
    x ∈ trace := by
  induction ids generalizing trace with
  | nil => cases hmem
  | cons a rest ih =>
    cases ha : resubscribeOne env a with
    | none => simp [resubscribeList, ha] at h
    | some ta =>
      cases hrest : resubscribeList env rest with
      | none => simp [resubscribeList, ha, hrest] at h
      | some ts =>
        simp only [resubscribeList, ha, hrest, Option.some_bind] at h
        replace h := Option.some.inj h
        subst h
        rcases List.mem_cons.mp hmem with rfl | hmem2
        · rw [ha] at hone
          replace hone := Option.some.inj hone
          subst hone
          exact List.mem_append_left _ hx
        · exact List.mem_append_right _ (ih ts hrest hmem2)

theorem no_remove_resubscribeList (env : ResubEnv) (ids : List SpellId)
    (trace : List ResubEvent) (h : resubscribeList env ids = some trace) :
    ∀ x ∈ trace, x.isRemove = false := by
  induction ids generalizing trace with
  | nil =>
    replace h := Option.some.inj h
    subst h
    simp
  | cons a rest ih =>
    cases ha : resubscribeOne env a with
    | none => simp [resubscribeList, ha] at h
    | some ta =>
      cases hrest : resubscribeList env rest with
      | none => simp [resubscribeList, ha, hrest] at h
      | some ts =>
        simp only [resubscribeList, ha, hrest, Option.some_bind] at h
        replace h := Option.some.inj h
        subst h
        intro x hx
        rcases List.mem_append.mp hx with hx | hx
        · exact no_remove_resubscribeOne env a ta ha x hx
        · exact ih ts hrest x hx

theorem runRegistry_eq_of_no_remove (reg : List SpellId)
    (trace : List ResubEvent) (h : ∀ x ∈ trace, x.isRemove = false) :
    runRegistry reg trace = reg := by
  induction trace generalizing reg with
  | nil => rfl
  | cons a rest ih =>
    have hhead := h a (List.mem_cons_self a rest)
    have ha : applyRegistry reg a = reg := by
      cases a
      case removeSpellCall s => simp [ResubEvent.isRemove] at hhead
      all_goals rfl
    have htail : ∀ x ∈ rest, x.isRemove = false :=
      fun x hx => h x (List.mem_cons_of_mem a hx)
    calc runRegistry reg (a :: rest)
        = runRegistry (applyRegistry reg a) rest := rfl
      _ = runRegistry reg rest := by rw [ha]
      _ = reg := ih reg htail

theorem subscribedIds_resubscribeList (env : ResubEnv) (ids : List SpellId)
    (trace : List ResubEvent) (h : resubscribeList env ids = some trace) :
    subscribedIds trace = ids.filter (fun id => qualifies env id) := by
  induction ids generalizing trace with
  | nil =>
    replace h := Option.some.inj h
    subst h
    simp [subscribedIds]
  | cons a rest ih =>
    cases ha : resubscribeOne env a with
    | none => simp [resubscribeList, ha] at h
    | some ta =>
      cases hrest : resubscribeList env rest with
      | none => simp [resubscribeList, ha, hrest] at h
      | some ts =>
        simp only [resubscribeList, ha, hrest, Option.some_bind] at h
        replace h := Option.some.inj h
        subst h
        rw [subscribedIds_append, subscribedIds_resubscribeOne env a ta ha,
          ih ts hrest, List.filter_cons]
        cases hq : qualifies env a <;> simp [hq]

theorem qualifies_false_of_configUnusable (env : ResubEnv) (id : SpellId)
    (h : configUnusable env id = true) : qualifies env id = false := by
  unfold configUnusable at h
  unfold qualifies resubscribeStep
  split at h
  · cases h
  · split at h
    · cases h
    · split at h
      · rfl
      · split at h
        · rfl
        · rw [Option.isNone_iff_eq_none] at h
          simp only [h]

/-! ## Helper lemmas about the builtin handlers -/

theorem wrap_unit_ok (r : Except JError Unit) (v : Option Value)
    (h : wrap_unit r = .ok v) : v = none := by
  cases r with
  | error e => exact Except.noConfusion h
  | ok u => exact (Except.ok.inj h).symm

theorem wrap_ok (r : Except JError Value) (v : Option Value)
    (h : wrap r = .ok v) : ∃ w, v = some w := by
  cases r with
  | error e => exact Except.noConfusion h
  | ok w => exact ⟨w, (Except.ok.inj h).symm⟩

theorem is_active_ok_value (env : BuiltinEnv) (args : Args) (params : Params)
    (v : Option Value)
    (h : (make_is_deal_active_closure env args params).result = .ok v) :
    ∃ w, v = some w := by
  unfold make_is_deal_active_closure spawn_blocking at h
  cases hj : env.join_is_deal_active with
  | error e =>
    rw [hj] at h
    simp [Except.map] at h
  | ok u =>
    rw [hj] at h
    simp only [Except.map] at h
    exact wrap_ok _ v h

/-! ## Helper lemmas about the event loop -/

theorem dispatched_map_recovery (rt : List ResubEvent) :
    (rt.map StartEvent.recovery).filterMap StartEvent.dispatched = [] := by
  induction rt with
  | nil => rfl
  | cons a rest ih => simp [StartEvent.dispatched, ih]

theorem dispatched_map_dispatch (events : List TriggerEvent) :
    (events.map StartEvent.dispatch).filterMap StartEvent.dispatched =
      events := by
  induction events with
  | nil => rfl
  | cons a rest ih => simp [StartEvent.dispatched, ih]

theorem filter_rec_map_recovery (rt : List ResubEvent) :
    (rt.map StartEvent.recovery).filter (fun x => x.isRecovery) =
      rt.map StartEvent.recovery := by
  induction rt with
  | nil => rfl
  | cons a rest ih => simp [StartEvent.isRecovery, ih]

theorem filter_rec_map_dispatch (events : List TriggerEvent) :
    (events.map StartEvent.dispatch).filter (fun x => x.isRecovery) = [] := by
  induction events with
  | nil => rfl
  | cons a rest ih => simp [StartEvent.isRecovery, ih]

theorem filter_not_rec_map_recovery (rt : List ResubEvent) :
    (rt.map StartEvent.recovery).filter (fun x => !x.isRecovery) = [] := by
  induction rt with
  | nil => rfl
  | cons a rest ih => simp [StartEvent.isRecovery, ih]

theorem filter_not_rec_map_dispatch (events : List TriggerEvent) :
    (events.map StartEvent.dispatch).filter (fun x => !x.isRecovery) =
      events.map StartEvent.dispatch := by
  induction events with
  | nil => rfl
  | cons a rest ih => simp [StartEvent.isRecovery, ih]

/-! ## Claim theorems -/

/-- C1 counterexample: in `envC1` there is a registered spell whose owner
lookup succeeds but whose owning peer scope cannot be resolved (the owner
is not a locally-known peer), and recovery panics — `resubscribe_spells`
aborts at the `expect` instead of treating it as a non-fatal per-spell
failure and continuing. -/
theorem recovery_scope_expect_cex :
    (∃ id ∈ flattenedSpells envC1, ∃ owner,
      envC1.get_service_owner id = .ok owner ∧ envC1.scope owner = none) ∧
    resubscribeSpells envC1 = none := by
  refine ⟨⟨"spell-a", by decide, 7, rfl, rfl⟩, ?_⟩
  rfl

/-- C1 (amended): for every registered spell whose owner lookup succeeds
but whose owning peer scope cannot be resolved (the owner is not a
locally-known peer), `resubscribe_spells` panics at
`.expect("Should be local peer_id")`, aborting recovery — the failure is
not treated as a non-fatal per-spell failure. -/
theorem recovery_panics_on_unresolvable_scope (env : ResubEnv)
    (id : SpellId) (owner : PeerId) (hmem : id ∈ flattenedSpells env)
    (hown : env.get_service_owner id = .ok owner)
    (hsc : env.scope owner = none) :
    resubscribeSpells env = none := by
  have hstep : resubscribeStep env id = ResubOutcome.panic := by
    unfold resubscribeStep
    simp only [hown, hsc]
  exact resubscribeList_none_of_mem env _ id hmem
    (resubscribeOne_eq_none env id hstep)

theorem recovery_panics_on_unresolvable_scope_witness :
    resubscribeSpells envC1 = none :=
  recovery_panics_on_unresolvable_scope envC1 "spell-a" 7 (by decide) rfl rfl

/-- C2: when no registered spell hits the scope-resolution panic, every
error caught by the per-spell `try` block (owner lookup, config fetch,
config conversion, subscribe) is non-fatal: recovery completes with a
trace, every registered spell is processed (its "Rescheduling spell" log
appears), every caught error is logged together with its spell id, and
the spell registry is left untouched. -/
theorem recovery_per_spell_errors_nonfatal (env : ResubEnv)
    (reg : List SpellId) (hnp : NoScopePanic env) :
    ∃ trace, resubscribeSpells env = some trace ∧
      (∀ id ∈ flattenedSpells env, ResubEvent.logRescheduling id ∈ trace) ∧
      (∀ id ∈ flattenedSpells env, ∀ e, stepError env id = some e →
        ResubEvent.warnFailed id e ∈ trace) ∧
      runRegistry reg trace = reg := by
  obtain ⟨trace, htrace⟩ := resubscribeList_isSome env (flattenedSpells env) hnp
  refine ⟨trace, htrace, ?_, ?_, ?_⟩
  · intro id hid
    obtain ⟨t, ht⟩ := resubscribeOne_isSome env id (hnp id hid)
    exact mem_resubscribeList env _ trace id t _ htrace hid ht
      (log_mem_resubscribeOne env id t ht)
  · intro id hid e he
    obtain ⟨t, ht⟩ := resubscribeOne_isSome env id (hnp id hid)
    exact mem_resubscribeList env _ trace id t _ htrace hid ht
      (warn_mem_resubscribeOne env id t e ht he)
  · exact runRegistry_eq_of_no_remove reg trace
      (no_remove_resubscribeList env _ trace htrace)

theorem recovery_per_spell_errors_nonfatal_witness :
    ResubEvent.logRescheduling "badcfg" ∈ traceA ∧
    ResubEvent.warnFailed "badcfg" ⟨"no config"⟩ ∈ traceA ∧
    runRegistry ["good", "noresched", "badcfg"] traceA =
      ["good", "noresched", "badcfg"] := by
  obtain ⟨trace, htrace, hlog, hwarn, hreg⟩ :=
    recovery_per_spell_errors_nonfatal envA ["good", "noresched", "badcfg"]
      (by decide)
  have heq : trace = traceA := by
    have h2 := htrace.symm.trans
      (show resubscribeSpells envA = some traceA from rfl)
    exact Option.some.inj h2
  subst heq
  exact ⟨hlog "badcfg" (by decide),
    hwarn "badcfg" (by decide) ⟨"no config"⟩ rfl, hreg⟩

/-- C3: when recovery completes, the subscribe calls it makes are, in
order, exactly the flattened owner→spell-ids grouping restricted to the
spells whose owner resolves and whose persisted trigger config converts
to a rescheduled subscription request — one call per such spell, N calls
for N such spells, none for the others. -/
theorem recovery_subscribes_exactly_qualifying (env : ResubEnv)
    (trace : List ResubEvent) (h : resubscribeSpells env = some trace) :
    subscribedIds trace =
      (flattenedSpells env).filter (fun id => qualifies env id) :=
  subscribedIds_resubscribeList env (flattenedSpells env) trace h

theorem recovery_subscribes_exactly_qualifying_witness :
    subscribedIds traceA = ["good"] :=
  (recovery_subscribes_exactly_qualifying envA traceA rfl).trans rfl

/-- C4: when recovery completes, a spell whose persisted trigger config
is absent, malformed, or non-reschedulable is skipped: no subscribe call
is made for it, and the spell registry is left unchanged — the spell
remains registered. -/
theorem recovery_skips_unusable_config_keeps_registry (env : ResubEnv)
    (reg : List SpellId) (trace : List ResubEvent) (id : SpellId)
    (h : resubscribeSpells env = some trace)
    (hbad : configUnusable env id = true) :
    (∀ rc, ResubEvent.subscribeCall id rc ∉ trace) ∧
    runRegistry reg trace = reg := by
  constructor
  · intro rc hmem
    have hq := qualifies_false_of_configUnusable env id hbad
    have hsub := subscribedIds_resubscribeList env _ trace h
    have hid : id ∈ subscribedIds trace := by
      unfold subscribedIds
      exact List.mem_filterMap.mpr ⟨_, hmem, rfl⟩
    rw [hsub] at hid
    have := List.of_mem_filter hid
    rw [hq] at this
    cases this
  · exact runRegistry_eq_of_no_remove reg trace
      (no_remove_resubscribeList env _ trace h)

theorem recovery_skips_unusable_config_keeps_registry_witness :
    ResubEvent.subscribeCall "noresched" ⟨0⟩ ∉ traceA ∧
    runRegistry ["good", "noresched", "badcfg"] traceA =
      ["good", "noresched", "badcfg"] :=
  ⟨(recovery_skips_unusable_config_keeps_registry envA
      ["good", "noresched", "badcfg"] traceA "noresched" rfl (by decide)).1 ⟨0⟩,
   (recovery_skips_unusable_config_keeps_registry envA
      ["good", "noresched", "badcfg"] traceA "noresched" rfl (by decide)).2⟩

/-- C5: the event loop's `for_each_concurrent` limit is `None`
(unbounded — every event's unit of work starts regardless of how many
are in flight), and every trigger event received on the channel is
dispatched to exactly one unit of work, in order of receipt, with no
event dropped. -/
theorem event_loop_unbounded_dispatch_no_drop (env : ResubEnv)
    (events : List TriggerEvent) (trace : List StartEvent)
    (h : start env events = some trace) :
    forEachConcurrentLimit = none ∧
    trace.filterMap StartEvent.dispatched = events := by
  refine ⟨rfl, ?_⟩
  unfold start at h
  cases hr : resubscribeSpells env with
  | none => rw [hr] at h; exact Option.noConfusion h
  | some rt =>
    rw [hr] at h
    replace h := Option.some.inj h
    subst h
    rw [List.filterMap_append, dispatched_map_recovery,
      dispatched_map_dispatch]
    rfl

theorem event_loop_unbounded_dispatch_no_drop_witness :
    forEachConcurrentLimit = none ∧
    startTraceA.filterMap StartEvent.dispatched = eventsA :=
  event_loop_unbounded_dispatch_no_drop envA eventsA startTraceA rfl

/-- C6: in every completed `start` run, the recovery step runs exactly
once and its whole trace precedes every dispatched event (no trigger
event is consumed before recovery completes), and the loop dispatches
exactly the events of the channel, terminating only when the channel is
exhausted (closed). -/
theorem start_recovery_before_loop_until_close (env : ResubEnv)
    (events : List TriggerEvent) (trace : List StartEvent)
    (h : start env events = some trace) :
    (∃ rt, resubscribeSpells env = some rt ∧
      trace = rt.map StartEvent.recovery ++ events.map StartEvent.dispatch) ∧
    trace = trace.filter (fun x => x.isRecovery) ++
      trace.filter (fun x => !x.isRecovery) ∧
    trace.filterMap StartEvent.dispatched = events := by
  unfold start at h
  cases hr : resubscribeSpells env with
  | none => rw [hr] at h; exact Option.noConfusion h
  | some rt =>
    rw [hr] at h
    replace h := Option.some.inj h
    subst h
    refine ⟨⟨rt, rfl, rfl⟩, ?_, ?_⟩
    · rw [List.filter_append, List.filter_append,
        filter_rec_map_recovery, filter_rec_map_dispatch,
        filter_not_rec_map_recovery, filter_not_rec_map_dispatch]
      simp
    · rw [List.filterMap_append, dispatched_map_recovery,
        dispatched_map_dispatch]
      rfl

theorem start_recovery_before_loop_until_close_witness :
    resubscribeSpells envA = some traceA ∧
    startTraceA = traceA.map StartEvent.recovery ++
      eventsA.map StartEvent.dispatch ∧
    startTraceA = startTraceA.filter (fun x => x.isRecovery) ++
      startTraceA.filter (fun x => !x.isRecovery) ∧
    startTraceA.filterMap StartEvent.dispatched = eventsA := by
  obtain ⟨⟨rt, hrt, htr⟩, hfil, hdis⟩ :=
    start_recovery_before_loop_until_close envA eventsA startTraceA rfl
  have heq : rt = traceA :=
    Option.some.inj (hrt.symm.trans
      (show resubscribeSpells envA = some traceA from rfl))
  subst heq
  exact ⟨rfl, htr, hfil, hdis⟩

/-- C7: the `worker.is_active` builtin handler dispatches the underlying
deal-activation check to the separate execution context reserved for
blocking work (`tokio::task::spawn_blocking`) on every invocation,
rather than running it inline on the cooperative scheduler. -/
theorem is_active_runs_on_blocking_context (env : BuiltinEnv) (args : Args)
    (params : Params) :
    lookupBuiltin env "worker" "is_active" =
      some (make_is_deal_active_closure env) ∧
    (make_is_deal_active_closure env args params).ctx = ExecCtx.blocking :=
  ⟨rfl, rfl⟩

/-- C8: if the blocking-dispatch join for the `worker.is_active` handler
fails, the failure is surfaced as a structured builtin-call error value
(the `?` conversion of the join error) — the handler is total and never
panics. -/
theorem is_active_join_failure_to_error (env : BuiltinEnv) (args : Args)
    (params : Params) (e : JoinError)
    (hjoin : env.join_is_deal_active = .error e) :
    (make_is_deal_active_closure env args params).result =
      .error e.toJError := by
  unfold make_is_deal_active_closure spawn_blocking
  rw [hjoin]
  simp [Except.map]

theorem is_active_join_failure_to_error_witness :
    (make_is_deal_active_closure envJ [] 0).result =
      .error (JoinError.toJError ⟨"task cancelled"⟩) :=
  is_active_join_failure_to_error envJ [] 0 ⟨"task cancelled"⟩ rfl

/-- C10: `Sorcerer::new` unwraps `SpellStorage::create` with `expect`:
when storage creation fails it panics (no orchestrator is returned), and
when it succeeds it returns the orchestrator, the builtin catalog and the
spell version — the signature offers no error value to the caller. -/
theorem new_panics_iff_storage_create_fails (env : BuiltinEnv)
    (create : String → Except String (SpellStorage × String))
    (config : ResolvedConfig) :
    (∀ e, create config.dir_config.spell_base_dir = .error e →
      Sorcerer.new env create config = none) ∧
    (∀ st ver, create config.dir_config.spell_base_dir = .ok (st, ver) →
      Sorcerer.new env create config =
        some ({ spell_storage := st,
                spell_script_particle_ttl := config.max_spell_particle_ttl,
                worker_period_sec := config.worker_period_sec },
              builtin_functions env, ver)) := by
  constructor
  · intro e he
    unfold Sorcerer.new
    rw [he]
  · intro st ver hok
    unfold Sorcerer.new
    rw [hok]

theorem new_panics_iff_storage_create_fails_witness :
    Sorcerer.new envW createFailW configW = none :=
  (new_panics_iff_storage_create_fails envW createFailW configW).1
    "permission denied" rfl

/-- C9: every unit-returning builtin handler (spell.remove,
spell.update_trigger_config, worker.remove, worker.activate,
worker.deactivate, errorHandlingSrv.error, callbackSrv.response) yields
no return value slot on success, and every value-returning builtin
handler (spell.install, spell.list, the getDataSrv functions including
the catch-all default, worker.create, worker.get_worker_id, worker.list,
worker.is_active) yields exactly one wrapped value on success. -/
theorem builtin_return_slot_contract (env : BuiltinEnv) :
    (∀ p ∈ unitBuiltins, ∀ h, lookupBuiltin env p.1 p.2 = some h →
      ∀ args params v, (h args params).result = .ok v → v = none) ∧
    (∀ p ∈ valueBuiltins, ∀ h, lookupBuiltin env p.1 p.2 = some h →
      ∀ args params v, (h args params).result = .ok v → ∃ w, v = some w) ∧
    (∀ fname h, lookupBuiltin env "getDataSrv" fname = some h →
      ∀ args params v, (h args params).result = .ok v → ∃ w, v = some w) := by
  refine ⟨?_, ?_, ?_⟩
  · intro p hp h hlook args params v hv
    simp only [unitBuiltins, List.mem_cons, List.not_mem_nil, or_false] at hp
    rcases hp with rfl | rfl | rfl | rfl | rfl | rfl | rfl <;>
      (replace hlook := Option.some.inj hlook; subst hlook) <;>
      exact wrap_unit_ok _ v hv
  · intro p hp h hlook args params v hv
    simp only [valueBuiltins, List.mem_cons, List.not_mem_nil, or_false] at hp
    rcases hp with rfl | rfl | rfl | rfl | rfl | rfl | rfl | rfl <;>
      (replace hlook := Option.some.inj hlook; subst hlook) <;>
      first
        | exact wrap_ok _ v hv
        | exact wrap_ok (.ok (Value.str env.host_peer_id_base58)) v hv
        | exact is_active_ok_value env args params v hv
  · intro fname h hlook args params v hv
    by_cases h1 : fname = "spell_id"
    · subst h1
      replace hlook := Option.some.inj hlook
      subst hlook
      exact wrap_ok _ v hv
    · by_cases h2 : fname = "-relay-"
      · subst h2
        replace hlook := Option.some.inj hlook
        subst hlook
        exact wrap_ok (.ok (Value.str env.host_peer_id_base58)) v hv
      · have hb1 : (fname == "spell_id") = false := beq_eq_false_iff_ne.mpr h1
        have hb2 : (fname == "-relay-") = false := beq_eq_false_iff_ne.mpr h2
        have hcs : lookupBuiltin env "getDataSrv" fname =
            match List.lookup fname
              [("spell_id", make_get_spell_id_closure env),
               ("-relay-", make_get_relay_closure env)] with
            | some hh => some hh
            | none => some (make_get_spell_arg_closure env) := rfl
        rw [hcs] at hlook
        simp only [List.lookup, hb1, hb2] at hlook
        replace hlook := Option.some.inj hlook
        subst hlook
        exact wrap_ok _ v hv

theorem builtin_return_slot_contract_witness :
    (none : Option Value) = none ∧
    ∃ w, (some (Value.bool true) : Option Value) = some w :=
  ⟨(builtin_return_slot_contract envW).1 ("spell", "remove") (by decide)
      (make_spell_remove_closure envW) rfl [] 0 none rfl,
   (builtin_return_slot_contract envW).2.1 ("worker", "is_active") (by decide)
      (make_is_deal_active_closure envW) rfl [] 0 (some (Value.bool true)) rfl⟩
